import Mathlib

/-!
Shallow embedding of the Resume-Builder data-access layer
(src/src/contexts/FirestoreContext.tsx, firebaseService section).

The Firestore document store is modelled as a record of partial maps
(collections keyed by document id; the owner-scoped resume subcollection
`users/{uid}/resumes` is keyed by owner id and resume id).  Each
operation of the data-access layer becomes a function from its arguments
and the current store to a result (`Except String`, matching the
JavaScript `throw new Error(msg)` discipline) paired with the store
after the operation's writes.  A thrown error carries the store as of
the throw, so writes issued before a throw persist, exactly as in the
sequential `await` chains of the source.

`serverTimestamp()` and `new Date()` are modelled by an explicit `now`
parameter (milliseconds since epoch, as an `Int`); Firestore's random
document ids by an explicit `newId` parameter; `window.location.origin`
by an explicit `origin` parameter.
-/

/-- JavaScript `x || d` on an optional string: `undefined`/`null` and the
empty string are falsy, any other string is returned unchanged. -/
def jsOrString (x : Option String) (d : String) : String :=
  match x with
  | some s => if s = "" then d else s
  | none => d

/-- Firebase `auth.currentUser`: uid plus nullable display attributes. -/
structure AuthUser where
  uid : String
  email : Option String
  displayName : Option String
  photoURL : Option String
  deriving DecidableEq, Repr

/-- One entry of a resume's version history
(`versions` array element in the `Resume` interface). -/
structure VersionEntry where
  versionNumber : Nat
  timestamp : Int
  changes : String
  deriving DecidableEq, Repr

/-- `Resume.content.personalInfo`. -/
structure PersonalInfo where
  name : String
  email : String
  phone : String
  location : String
  website : String
  summary : String
  deriving DecidableEq, Repr

/-- One `Resume.content.education` element. -/
structure EducationItem where
  institution : String
  degree : String
  fieldOfStudy : String
  startDate : String
  endDate : String
  description : String
  deriving DecidableEq, Repr

/-- One `Resume.content.experience` element. -/
structure ExperienceItem where
  company : String
  position : String
  location : String
  startDate : String
  endDate : String
  current : Bool
  description : String
  deriving DecidableEq, Repr

/-- One `Resume.content.skills` element. -/
structure SkillItem where
  name : String
  level : Int
  deriving DecidableEq, Repr

/-- One `Resume.content.projects` element. -/
structure ProjectItem where
  name : String
  description : String
  url : String
  technologies : List String
  deriving DecidableEq, Repr

/-- One `Resume.content.certifications` element. -/
structure CertItem where
  name : String
  issuer : String
  date : String
  url : String
  deriving DecidableEq, Repr

/-- `Resume.content`: personal info plus the five ordered content lists. -/
structure ResumeContent where
  personalInfo : PersonalInfo
  education : List EducationItem
  experience : List ExperienceItem
  skills : List SkillItem
  projects : List ProjectItem
  certifications : List CertItem
  deriving DecidableEq, Repr

/-- `Resume.settings` (display settings). -/
structure ResumeDisplaySettings where
  fontSize : String
  fontFamily : String
  spacing : Rat
  color : String
  deriving DecidableEq, Repr

/-- A stored resume document.  The TypeScript interface marks `versions`
optional and `updateResume` guards with `currentResume.versions || []`
and `(currentResume.version || 0)`; since `[] || []` is `[]` and
`0 || 0` is `0`, totalising the two fields (missing read back as `[]`
and `0`) is behaviour-preserving. -/
structure Resume where
  title : String
  createdAt : Int
  updatedAt : Int
  templateId : String
  isPublic : Bool
  content : ResumeContent
  settings : ResumeDisplaySettings
  version : Nat
  versions : List VersionEntry
  deriving DecidableEq, Repr

/-- `Partial<Resume>` as passed to `createResume` / `updateResume`.
`version` and `versions` may be present in the patch object, but in
`updateResume` the spread `{...resumeData, updatedAt, version, versions}`
is overridden by the later keys, so only the change note of
`versions?.[0]` is ever read from them; `resumeId` is never stored. -/
structure ResumePatch where
  title : Option String := none
  createdAt : Option Int := none
  templateId : Option String := none
  isPublic : Option Bool := none
  content : Option ResumeContent := none
  settings : Option ResumeDisplaySettings := none
  version : Option Nat := none
  versions : Option (List VersionEntry) := none
  deriving DecidableEq, Repr

/-- `UserSettings.recentlyUsed`: the two recency lists. -/
structure RecentlyUsed where
  templates : List String
  resumes : List String
  deriving DecidableEq, Repr

/-- `UserSettings.notifications`. -/
structure NotificationPrefs where
  email : Bool
  browser : Bool
  deriving DecidableEq, Repr

/-- `UserSettings.privacySettings`. -/
structure PrivacySettings where
  allowDataCollection : Bool
  shareUsageStats : Bool
  deriving DecidableEq, Repr

/-- A stored user-settings document.  `createdAt`/`updatedAt` are only
written by some code paths, hence optional. -/
structure UserSettings where
  userId : String
  theme : String
  language : String
  notifications : NotificationPrefs
  defaultTemplate : String
  privacySettings : PrivacySettings
  recentlyUsed : RecentlyUsed
  createdAt : Option Int := none
  updatedAt : Option Int := none
  deriving DecidableEq, Repr

/-- `Partial<UserSettings>` as passed to `updateUserSettings` (a shallow
partial: a present `recentlyUsed` or `notifications` object replaces the
whole nested object, as Firestore `updateDoc` does for map values). -/
structure UserSettingsPatch where
  userId : Option String := none
  theme : Option String := none
  language : Option String := none
  notifications : Option NotificationPrefs := none
  defaultTemplate : Option String := none
  privacySettings : Option PrivacySettings := none
  recentlyUsed : Option RecentlyUsed := none
  deriving DecidableEq, Repr

/-- A stored user profile document (`users/{uid}`).  The bootstrap path
inside `createResume` writes `updatedAt` but not `lastLogin`/`isAdmin`,
while `createUserProfile` does the opposite, hence the optional fields. -/
structure UserProfileDoc where
  uid : String
  email : Option String
  displayName : Option String
  photoURL : Option String
  createdAt : Int
  lastLogin : Option Int := none
  isAdmin : Option Bool := none
  updatedAt : Option Int := none
  deriving DecidableEq, Repr

/-- A stored shared-resume document (`sharedResumes/{resumeId}`): a
denormalized snapshot of the source resume at share time. -/
structure SharedResume where
  resumeId : String
  userId : String
  title : String
  createdAt : Int
  expiresAt : Option Int
  viewCount : Nat
  publicUrl : String
  content : ResumeContent
  templateId : String
  deriving DecidableEq, Repr

/-- A Firestore collection: a partial map from document id to document. -/
def Coll (α : Type) := String → Option α

/-- Firestore `setDoc`: create or wholly replace the document at `k`. -/
def Coll.set {α : Type} (c : Coll α) (k : String) (v : α) : Coll α :=
  fun q => if q = k then some v else c q

/-- Firestore `deleteDoc`: silently succeeds when the document is absent. -/
def Coll.del {α : Type} (c : Coll α) (k : String) : Coll α :=
  fun q => if q = k then none else c q

/-- The owner-scoped subcollection `users/{uid}/resumes`, keyed by the
owner's uid and the resume's document id. -/
def ResumeColl := String → String → Option Resume

/-- `setDoc` into an owner's resume subcollection. -/
def ResumeColl.set (c : ResumeColl) (u k : String) (v : Resume) : ResumeColl :=
  fun u1 k1 => if u1 = u ∧ k1 = k then some v else c u1 k1

/-- `deleteDoc` from an owner's resume subcollection. -/
def ResumeColl.del (c : ResumeColl) (u k : String) : ResumeColl :=
  fun u1 k1 => if u1 = u ∧ k1 = k then none else c u1 k1

/-- The document store: the four collections the data-access layer touches. -/
structure Store where
  users : Coll UserProfileDoc
  userSettings : Coll UserSettings
  resumes : ResumeColl
  sharedResumes : Coll SharedResume

/-- The empty store (no documents anywhere). -/
def Store.empty : Store :=
  { users := fun _ => none
    userSettings := fun _ => none
    resumes := fun _ _ => none
    sharedResumes := fun _ => none }

/-- `getCurrentUserId`: throws when no user is signed in. -/
def getCurrentUserId (auth : Option AuthUser) : Except String String :=
  match auth with
  | none => .error "User not authenticated"
  | some u => .ok u.uid

/-- Default content built inside `createResume` when no content is
supplied: personal info seeded from `auth.currentUser?.displayName || ''`
and `auth.currentUser?.email || ''`, every list empty. -/
def defaultContent (u : AuthUser) : ResumeContent :=
  { personalInfo :=
      { name := jsOrString u.displayName ""
        email := jsOrString u.email ""
        phone := ""
        location := ""
        website := ""
        summary := "" }
    education := []
    experience := []
    skills := []
    projects := []
    certifications := [] }

/-- Default display settings built inside `createResume`. -/
def defaultDisplaySettings : ResumeDisplaySettings :=
  { fontSize := "12pt", fontFamily := "Arial", spacing := 1.15, color := "#333333" }

/-- The defensive profile bootstrap at the top of `createResume`
(`user?.email || ''` and friends; `user` is the signed-in user). -/
def bootstrapProfile (u : AuthUser) (now : Int) : UserProfileDoc :=
  { uid := u.uid
    email := some (jsOrString u.email "")
    displayName := some (jsOrString u.displayName "")
    photoURL := some (jsOrString u.photoURL "")
    createdAt := now
    updatedAt := some now }

/-- The fresh user-settings document written by `createResume` when none
exists yet: default preferences, recency lists seeded with the new
resume id and (when truthy) the supplied template id. -/
def freshSettingsDoc (uid newId : String) (templateId : Option String) (now : Int) :
    UserSettings :=
  { userId := uid
    theme := "light"
    language := "en"
    notifications := { email := true, browser := true }
    defaultTemplate := ""
    privacySettings := { allowDataCollection := true, shareUsageStats := true }
    recentlyUsed :=
      { resumes := [newId]
        templates :=
          match templateId with
          | some t => if t = "" then [] else [t]
          | none => [] }
    createdAt := some now
    updatedAt := some now }

/-- The recency-list push used by `createResume` and `updateResume`:
"Add to front of array and remove duplicates", then cap —
`[id, ...recent.filter(i => i !== id)].slice(0, cap)`. -/
def pushRecent (x : String) (l : List String) (cap : Nat) : List String :=
  (x :: l.filter (fun i => i ≠ x)).take cap

/-- `createResume(resumeData)`: ensure the profile document exists, insert
the new resume (version 1, history `[{1, now, "Initial creation"}]`),
then update (or create) the user-settings recency lists; returns the new
document id. -/
def createResume (auth : Option AuthUser) (now : Int) (newId : String)
    (resumeData : ResumePatch) (s : Store) : Except String String × Store :=
  match auth with
  | none => (.error "User not authenticated", s)
  | some u =>
    let s1 : Store :=
      match s.users u.uid with
      | some _ => s
      | none => { s with users := s.users.set u.uid (bootstrapProfile u now) }
    let newResume : Resume :=
      { title := jsOrString resumeData.title "Untitled Resume"
        createdAt := now
        updatedAt := now
        templateId := jsOrString resumeData.templateId ""
        isPublic := false
        content := resumeData.content.getD (defaultContent u)
        settings := resumeData.settings.getD defaultDisplaySettings
        version := 1
        versions := [{ versionNumber := 1, timestamp := now, changes := "Initial creation" }] }
    let s2 : Store := { s1 with resumes := s1.resumes.set u.uid newId newResume }
    let s3 : Store :=
      match s2.userSettings u.uid with
      | some st =>
        let recentResumes := st.recentlyUsed.resumes
        let recentTemplates := st.recentlyUsed.templates
        let updatedResumes := pushRecent newId recentResumes 10
        let updatedTemplates :=
          match resumeData.templateId with
          | some t =>
            if t = "" then recentTemplates
            else pushRecent t recentTemplates 5
          | none => recentTemplates
        let st1 : UserSettings :=
          { st with
            recentlyUsed := { resumes := updatedResumes, templates := updatedTemplates }
            updatedAt := some now }
        { s2 with userSettings := s2.userSettings.set u.uid st1 }
      | none =>
        { s2 with userSettings := s2.userSettings.set u.uid (freshSettingsDoc u.uid newId resumeData.templateId now) }
    (.ok newId, s3)

/-- `getResumeById(resumeId)`: point read under the *current* user's
subcollection; absent documents (including ids that only exist under a
different owner) throw "Resume not found". -/
def getResumeById (auth : Option AuthUser) (resumeId : String) (s : Store) :
    Except String Resume × Store :=
  match auth with
  | none => (.error "User not authenticated", s)
  | some u =>
    match s.resumes u.uid resumeId with
    | none => (.error "Resume not found", s)
    | some r => (.ok r, s)

/-- The merge performed by `updateDoc` with the spread patch in
`updateResume`; `updatedAt`, `version` and `versions` keys come later in
the object literal and are therefore set separately by the caller. -/
def applyResumePatch (r : Resume) (p : ResumePatch) : Resume :=
  { r with
    title := p.title.getD r.title
    createdAt := p.createdAt.getD r.createdAt
    templateId := p.templateId.getD r.templateId
    isPublic := p.isPublic.getD r.isPublic
    content := p.content.getD r.content
    settings := p.settings.getD r.settings }

/-- The change note of an update: `resumeData.versions?.[0]?.changes ||
'Updated resume'`. -/
def changeNote (p : ResumePatch) : String :=
  jsOrString ((p.versions.getD []).head?.map (fun e => e.changes)) "Updated resume"

/-- `updateResume(resumeId, resumeData)`: throws when the resume is
absent; otherwise bumps `version` by one, appends one history entry
carrying the new version number, applies the patch, stamps `updatedAt`,
and moves the id to the front of the resume recency list (cap 10). -/
def updateResume (auth : Option AuthUser) (now : Int) (resumeId : String)
    (resumeData : ResumePatch) (s : Store) : Except String Unit × Store :=
  match auth with
  | none => (.error "User not authenticated", s)
  | some u =>
    match s.resumes u.uid resumeId with
    | none => (.error "Resume not found", s)
    | some currentResume =>
      let newVersion := currentResume.version + 1
      let newVersionEntry : VersionEntry :=
        { versionNumber := newVersion
          timestamp := now
          changes := changeNote resumeData }
      let updated : Resume :=
        { applyResumePatch currentResume resumeData with
          updatedAt := now
          version := newVersion
          versions := currentResume.versions ++ [newVersionEntry] }
      let s1 : Store := { s with resumes := s.resumes.set u.uid resumeId updated }
      let s2 : Store :=
        match s1.userSettings u.uid with
        | some st =>
          let updatedResumes := pushRecent resumeId st.recentlyUsed.resumes 10
          let st1 : UserSettings :=
            { st with
              recentlyUsed := { st.recentlyUsed with resumes := updatedResumes }
              updatedAt := some now }
          { s1 with userSettings := s1.userSettings.set u.uid st1 }
        | none => s1
      (.ok (), s2)

/-- `deleteResume(resumeId)`: delete the document (silently a no-op when
absent), then filter the id out of the resume recency list when a
settings document exists.  The shared-resumes collection is not touched. -/
def deleteResume (auth : Option AuthUser) (resumeId : String) (s : Store) :
    Except String Unit × Store :=
  match auth with
  | none => (.error "User not authenticated", s)
  | some u =>
    let s1 : Store := { s with resumes := s.resumes.del u.uid resumeId }
    let s2 : Store :=
      match s1.userSettings u.uid with
      | some st =>
        let st1 : UserSettings :=
          { st with recentlyUsed :=
              { st.recentlyUsed with
                resumes := st.recentlyUsed.resumes.filter (fun i => i ≠ resumeId) } }
        { s1 with userSettings := s1.userSettings.set u.uid st1 }
      | none => s1
    (.ok (), s2)

/-- Milliseconds in one day; `expirationDate.setDate(getDate() + n)` is
modelled as adding `n` fixed-length days to `now`. -/
def msPerDay : Int := 86400000

/-- `shareResume(resumeId, expiresInDays?)`: throws when the resume is
absent; computes `expiresAt` only when `expiresInDays` is truthy (present
and nonzero — JavaScript `if (expiresInDays)`); writes the snapshot with
`viewCount = 0`; marks the source resume public; returns the public URL. -/
def shareResume (auth : Option AuthUser) (now : Int) (origin : String)
    (resumeId : String) (expiresInDays : Option Int) (s : Store) :
    Except String String × Store :=
  match auth with
  | none => (.error "User not authenticated", s)
  | some u =>
    match s.resumes u.uid resumeId with
    | none => (.error "Resume not found", s)
    | some resumeData =>
      let expiresAt : Option Int :=
        match expiresInDays with
        | some d => if d ≠ 0 then some (now + d * msPerDay) else none
        | none => none
      let shared : SharedResume :=
        { resumeId := resumeId
          userId := u.uid
          title := resumeData.title
          createdAt := now
          expiresAt := expiresAt
          viewCount := 0
          publicUrl := origin ++ "/shared/" ++ resumeId
          content := resumeData.content
          templateId := resumeData.templateId }
      let s1 : Store := { s with sharedResumes := s.sharedResumes.set resumeId shared }
      let s2 : Store :=
        { s1 with resumes := s1.resumes.set u.uid resumeId ({ resumeData with isPublic := true }) }
      (.ok (origin ++ "/shared/" ++ resumeId), s2)

/-- `unshareResume(resumeId)`: delete the shared document, then clear
`isPublic` on the source (Firestore `updateDoc` throws when the source
document is absent). -/
def unshareResume (auth : Option AuthUser) (resumeId : String) (s : Store) :
    Except String Unit × Store :=
  match auth with
  | none => (.error "User not authenticated", s)
  | some u =>
    let s1 : Store := { s with sharedResumes := s.sharedResumes.del resumeId }
    match s1.resumes u.uid resumeId with
    | none => (.error "No document to update", s1)
    | some r =>
      (.ok (), { s1 with resumes := s1.resumes.set u.uid resumeId ({ r with isPublic := false }) })

/-- `getSharedResume(resumeId)`: throws "Shared resume not found" when
absent; throws "This shared resume has expired" when `expiresAt` is set
and strictly in the past, *before* any write; otherwise increments the
stored `viewCount` by one and returns the (pre-increment) snapshot. -/
def getSharedResume (now : Int) (resumeId : String) (s : Store) :
    Except String SharedResume × Store :=
  match s.sharedResumes resumeId with
  | none => (.error "Shared resume not found", s)
  | some sharedResumeData =>
    let expired : Bool :=
      match sharedResumeData.expiresAt with
      | some t => decide (t < now)
      | none => false
    if expired then (.error "This shared resume has expired", s)
    else
      let bumped : SharedResume :=
        { sharedResumeData with viewCount := sharedResumeData.viewCount + 1 }
      (.ok sharedResumeData, { s with sharedResumes := s.sharedResumes.set resumeId bumped })

/-- The merge performed by `updateDoc(userSettingsRef, settingsData)` in
`updateUserSettings`: fields present in the patch replace the stored
ones, with no cap or de-duplication enforcement on the recency lists. -/
def applySettingsPatch (st : UserSettings) (p : UserSettingsPatch) : UserSettings :=
  { st with
    userId := p.userId.getD st.userId
    theme := p.theme.getD st.theme
    language := p.language.getD st.language
    notifications := p.notifications.getD st.notifications
    defaultTemplate := p.defaultTemplate.getD st.defaultTemplate
    privacySettings := p.privacySettings.getD st.privacySettings
    recentlyUsed := p.recentlyUsed.getD st.recentlyUsed }

/-- `updateUserSettings(settingsData)`: a bare `updateDoc` of the
caller-supplied data (Firestore `updateDoc` throws when the settings
document does not exist). -/
def updateUserSettings (auth : Option AuthUser) (settingsData : UserSettingsPatch)
    (s : Store) : Except String Unit × Store :=
  match auth with
  | none => (.error "User not authenticated", s)
  | some u =>
    match s.userSettings u.uid with
    | none => (.error "No document to update", s)
    | some st =>
      (.ok (), { s with userSettings := s.userSettings.set u.uid (applySettingsPatch st settingsData) })

/-!  Concrete fixtures used by the witness theorems.  -/

/-- A signed-in user for concrete runs. -/
def wU : AuthUser :=
  { uid := "u1", email := some "dana@example.com", displayName := some "Dana", photoURL := none }

/-- Concrete resume content for fixtures (all lists empty). -/
def wContent : ResumeContent :=
  defaultContent { uid := "w", email := none, displayName := none, photoURL := none }

/-- A concrete stored resume for fixtures. -/
def wResume : Resume :=
  { title := "My CV", createdAt := 0, updatedAt := 0, templateId := "t1", isPublic := false
    content := wContent, settings := defaultDisplaySettings, version := 1
    versions := [{ versionNumber := 1, timestamp := 0, changes := "Initial creation" }] }

/-- A concrete shared-resume snapshot expiring at time 10. -/
def wSharedExpiring : SharedResume :=
  { resumeId := "r1", userId := "u1", title := "My CV", createdAt := 0
    expiresAt := some 10, viewCount := 3, publicUrl := "https://app/shared/r1"
    content := wContent, templateId := "t1" }

/-- A store holding only `wSharedExpiring` at id "r1". -/
def wStoreExpired : Store :=
  { Store.empty with sharedResumes := Store.empty.sharedResumes.set "r1" wSharedExpiring }

/-- C2: reading a shared resume whose `expiresAt` is set and strictly in
the past fails with the Expired error and returns the store unchanged —
in particular the stored `viewCount` is untouched, because the expiry
check precedes the view-count write. -/
theorem c2_expired_read_is_error_and_pure (now : Int) (rid : String) (s : Store)
    (sr : SharedResume) (t : Int)
    (hsr : s.sharedResumes rid = some sr)
    (hexp : sr.expiresAt = some t) (ht : t < now) :
    getSharedResume now rid s = (.error "This shared resume has expired", s) := by
  simp [getSharedResume, hsr, hexp, ht]

/-- C2 witness: a concrete expired share read at time 100. -/
theorem c2_expired_read_is_error_and_pure_witness :
    getSharedResume 100 "r1" wStoreExpired =
      (.error "This shared resume has expired", wStoreExpired) :=
  c2_expired_read_is_error_and_pure 100 "r1" wStoreExpired wSharedExpiring 10
    (by rfl) (by rfl) (by decide)

/-- C4: when a resume id exists only under owner B, a lookup by an
authenticated user A with a different uid fails with "Resume not found"
(the read goes to A's own subcollection, which is empty at that id); it
never returns B's data. -/
theorem c4_cross_tenant_not_found (u : AuthUser) (ownerB rid : String) (s : Store)
    (r : Resume) (hB : s.resumes ownerB rid = some r)
    (honly : ∀ o, o ≠ ownerB → s.resumes o rid = none)
    (hne : u.uid ≠ ownerB) :
    getResumeById (some u) rid s = (.error "Resume not found", s) := by
  have hA : s.resumes u.uid rid = none := honly u.uid hne
  simp [getResumeById, hA]

/-- A store holding `wResume` only under owner "bob". -/
def wStoreBob : Store :=
  { Store.empty with resumes := Store.empty.resumes.set "bob" "r1" wResume }

/-- C4 witness: user "u1" looking up "bob"'s resume id "r1". -/
theorem c4_cross_tenant_not_found_witness :
    getResumeById (some wU) "r1" wStoreBob = (.error "Resume not found", wStoreBob) :=
  c4_cross_tenant_not_found wU "bob" "r1" wStoreBob wResume (by rfl)
    (by
      intro o ho
      simp [wStoreBob, Store.empty, ResumeColl.set, ho])
    (by decide)

/-- C8: `deleteResume` never touches the shared-resumes collection: the
projection of a previously shared resume survives the delete unchanged
(only an explicit unshare removes it). -/
theorem c8_delete_leaves_shared_untouched (auth : Option AuthUser) (rid : String)
    (s : Store) :
    (deleteResume auth rid s).2.sharedResumes = s.sharedResumes := by
  cases auth with
  | none => rfl
  | some u =>
    unfold deleteResume
    cases h : s.userSettings u.uid <;> simp [h]

/-- C9: a read of a non-expired shared resume (no `expiresAt`, or an
`expiresAt` not strictly in the past) returns the snapshot and bumps the
stored `viewCount` by exactly one. -/
theorem c9_nonexpired_read_increments (now : Int) (rid : String) (s : Store)
    (sr : SharedResume)
    (hsr : s.sharedResumes rid = some sr)
    (hne : ∀ t, sr.expiresAt = some t → ¬ t < now) :
    (getSharedResume now rid s).1 = .ok sr ∧
    (getSharedResume now rid s).2.sharedResumes rid =
      some ({ sr with viewCount := sr.viewCount + 1 }) := by
  rcases hx : sr.expiresAt with _ | t
  · simp [getSharedResume, hsr, hx, Coll.set]
  · have ht := hne t hx
    simp [getSharedResume, hsr, hx, ht, Coll.set]

/-- A concrete shared-resume snapshot with no expiry and 3 views. -/
def wSharedOpen : SharedResume :=
  { resumeId := "r1", userId := "u1", title := "My CV", createdAt := 0
    expiresAt := none, viewCount := 3, publicUrl := "https://app/shared/r1"
    content := wContent, templateId := "t1" }

/-- A store holding only `wSharedOpen` at id "r1". -/
def wStoreOpen : Store :=
  { Store.empty with sharedResumes := Store.empty.sharedResumes.set "r1" wSharedOpen }

/-- C9 witness: a concrete non-expired read at time 100 goes from 3 to 4
views. -/
theorem c9_nonexpired_read_increments_witness :
    (getSharedResume 100 "r1" wStoreOpen).1 = .ok wSharedOpen ∧
    (getSharedResume 100 "r1" wStoreOpen).2.sharedResumes "r1" =
      some ({ wSharedOpen with viewCount := wSharedOpen.viewCount + 1 }) :=
  c9_nonexpired_read_increments 100 "r1" wStoreOpen wSharedOpen (by rfl)
    (by intro t ht; simp [wSharedOpen] at ht)

/-- C7: after `deleteResume`, whatever settings document the owner has
no longer lists the deleted id in the recently-used resume list. -/
theorem c7_delete_purges_recency (u : AuthUser) (rid : String) (s : Store) :
    ∀ st, (deleteResume (some u) rid s).2.userSettings u.uid = some st →
      rid ∉ st.recentlyUsed.resumes := by
  intro st hst
  rcases h : s.userSettings u.uid with _ | st0
  · simp [deleteResume, h] at hst
  · simp [deleteResume, h, Coll.set] at hst
    subst hst
    simp [List.mem_filter]

/-- A settings document for "u1" whose recency list holds "r1" and "r2". -/
def wSettingsTwo : UserSettings :=
  { userId := "u1", theme := "light", language := "en"
    notifications := { email := true, browser := true }
    defaultTemplate := ""
    privacySettings := { allowDataCollection := true, shareUsageStats := true }
    recentlyUsed := { templates := [], resumes := ["r1", "r2"] } }

/-- A store with `wSettingsTwo` for "u1" and `wResume` at ("u1", "r1"). -/
def wStoreDel : Store :=
  { Store.empty with
    userSettings := Store.empty.userSettings.set "u1" wSettingsTwo
    resumes := Store.empty.resumes.set "u1" "r1" wResume }

/-- The settings document left for "u1" by deleting "r1" from `wStoreDel`. -/
def wSettingsAfterDel : UserSettings :=
  { wSettingsTwo with recentlyUsed := { templates := [], resumes := ["r2"] } }

/-- C7 witness: deleting "r1" concretely leaves the list ["r2"], which
does not contain "r1". -/
theorem c7_delete_purges_recency_witness :
    "r1" ∉ wSettingsAfterDel.recentlyUsed.resumes :=
  c7_delete_purges_recency wU "r1" wStoreDel wSettingsAfterDel (by decide)

/-- C10: re-sharing an already-shared resume overwrites the whole
snapshot with the resume's current title, content and template
reference, and resets the stored `viewCount` to 0 (the count accumulated
under the previous share is discarded). -/
theorem c10_reshare_overwrites_and_resets (u : AuthUser) (now : Int)
    (origin rid : String) (dayCount : Option Int) (s : Store) (r : Resume)
    (srOld : SharedResume)
    (hr : s.resumes u.uid rid = some r)
    (hold : s.sharedResumes rid = some srOld) :
    ∃ sr, (shareResume (some u) now origin rid dayCount s).2.sharedResumes rid = some sr ∧
      sr.title = r.title ∧ sr.content = r.content ∧ sr.templateId = r.templateId ∧
      sr.viewCount = 0 := by
  simp [shareResume, hr, Coll.set]

/-- A store where "r1" is both owned by "u1" and already shared with 42
accumulated views. -/
def wStoreShared : Store :=
  { Store.empty with
    resumes := Store.empty.resumes.set "u1" "r1" wResume
    sharedResumes := Store.empty.sharedResumes.set "r1"
      ({ wSharedOpen with viewCount := 42 }) }

/-- C10 witness: concretely re-sharing "r1" resets the stored view count
from 42 to 0 and snapshots the current title, content and template. -/
theorem c10_reshare_overwrites_and_resets_witness :
    ∃ sr, (shareResume (some wU) 500 "https://app" "r1" (some 7) wStoreShared).2.sharedResumes "r1" = some sr ∧
      sr.title = wResume.title ∧ sr.content = wResume.content ∧
      sr.templateId = wResume.templateId ∧ sr.viewCount = 0 :=
  c10_reshare_overwrites_and_resets wU 500 "https://app" "r1" (some 7) wStoreShared
    wResume ({ wSharedOpen with viewCount := 42 }) (by rfl) (by rfl)

/-- `x || ''` is the identity on present strings: either branch of the
truthiness test returns `x` itself. -/
theorem jsOrString_present (x : String) : jsOrString (some x) "" = x := by
  by_cases h : x = "" <;> simp [jsOrString, h]

/-- C5: `createResume` with no content supplied stores version 1, a
one-entry history tagged "Initial creation", empty content lists, and
personal info seeded from the signed-in identity's display name and
email. -/
theorem c5_create_empty_defaults (u : AuthUser) (now : Int) (newId : String)
    (p : ResumePatch) (s : Store) (n e : String)
    (hc : p.content = none) (hn : u.displayName = some n) (he : u.email = some e) :
    (createResume (some u) now newId p s).1 = .ok newId ∧
    ∃ r, (createResume (some u) now newId p s).2.resumes u.uid newId = some r ∧
      r.version = 1 ∧
      r.versions = [{ versionNumber := 1, timestamp := now, changes := "Initial creation" }] ∧
      r.content.education = [] ∧ r.content.experience = [] ∧ r.content.skills = [] ∧
      r.content.projects = [] ∧ r.content.certifications = [] ∧
      r.content.personalInfo.name = n ∧ r.content.personalInfo.email = e := by
  rcases h1 : s.users u.uid with _ | prof <;>
    rcases h2 : s.userSettings u.uid with _ | st <;>
      simp [createResume, h1, h2, ResumeColl.set, hc, defaultContent, hn, he,
        jsOrString_present]

/-- C5 witness: a concrete creation for `wU` at time 7. -/
theorem c5_create_empty_defaults_witness :
    (createResume (some wU) 7 "r9" {} Store.empty).1 = .ok "r9" ∧
    ∃ r, (createResume (some wU) 7 "r9" {} Store.empty).2.resumes wU.uid "r9" = some r ∧
      r.version = 1 ∧
      r.versions = [{ versionNumber := 1, timestamp := 7, changes := "Initial creation" }] ∧
      r.content.education = [] ∧ r.content.experience = [] ∧ r.content.skills = [] ∧
      r.content.projects = [] ∧ r.content.certifications = [] ∧
      r.content.personalInfo.name = "Dana" ∧
      r.content.personalInfo.email = "dana@example.com" :=
  c5_create_empty_defaults wU 7 "r9" {} Store.empty "Dana" "dana@example.com"
    (by rfl) (by rfl) (by rfl)

/-- `createResume` under a signed-in user always returns the new id and
stores a resume with version 1 and a one-entry history. -/
theorem createResume_stores_v1 (u : AuthUser) (now : Int) (newId : String)
    (p : ResumePatch) (s : Store) :
    (createResume (some u) now newId p s).1 = .ok newId ∧
    ∃ r, (createResume (some u) now newId p s).2.resumes u.uid newId = some r ∧
      r.version = 1 ∧ r.versions.length = 1 := by
  rcases h1 : s.users u.uid with _ | prof <;>
    rcases h2 : s.userSettings u.uid with _ | st <;>
      simp [createResume, h1, h2, ResumeColl.set]

/-- One successful `updateResume` on an existing resume increments the
version by exactly 1 and appends exactly one history entry that carries
the new version number and the patch's change note. -/
theorem updateResume_step (u : AuthUser) (now : Int) (rid : String) (p : ResumePatch)
    (s : Store) (r : Resume) (hr : s.resumes u.uid rid = some r) :
    (updateResume (some u) now rid p s).1 = .ok () ∧
    ∃ r1, (updateResume (some u) now rid p s).2.resumes u.uid rid = some r1 ∧
      r1.version = r.version + 1 ∧
      r1.versions = r.versions ++
        [{ versionNumber := r.version + 1, timestamp := now, changes := changeNote p }] := by
  rcases h2 : s.userSettings u.uid with _ | st <;>
    simp [updateResume, hr, h2, ResumeColl.set]

/-- A sequence of `updateResume` calls by one user on one resume id:
stops at the first thrown error. -/
def runUpdates (u : AuthUser) (rid : String) (steps : List (Int × ResumePatch))
    (s : Store) : Except String Store :=
  match steps with
  | [] => .ok s
  | (now, p) :: rest =>
    match updateResume (some u) now rid p s with
    | (.ok _, s1) => runUpdates u rid rest s1
    | (.error e, _) => .error e

/-- Across any successful run of updates, `version` and the history
length each grow by the number of updates. -/
theorem runUpdates_version_growth (u : AuthUser) (rid : String)
    (steps : List (Int × ResumePatch)) :
    ∀ s s2 r, s.resumes u.uid rid = some r → runUpdates u rid steps s = .ok s2 →
      ∃ r2, s2.resumes u.uid rid = some r2 ∧
        r2.version = r.version + steps.length ∧
        r2.versions.length = r.versions.length + steps.length := by
  induction steps with
  | nil =>
    intro s s2 r hr h
    simp [runUpdates] at h
    subst h
    exact ⟨r, hr, by simp, by simp⟩
  | cons hd tl ih =>
    intro s s2 r hr h
    obtain ⟨now, p⟩ := hd
    obtain ⟨hok, r1, hr1, hv1, hvs1⟩ := updateResume_step u now rid p s r hr
    unfold runUpdates at h
    rcases hP : updateResume (some u) now rid p s with ⟨res, s1⟩
    rw [hP] at h hok
    simp at hok
    subst hok
    simp at h
    rw [hP] at hr1
    obtain ⟨r2, hr2, hv2, hvs2⟩ := ih s1 s2 r1 hr1 h
    refine ⟨r2, hr2, ?_, ?_⟩
    · rw [hv2, hv1]
      simp only [List.length_cons]
      omega
    · rw [hvs2, hvs1]
      simp only [List.length_append, List.length_cons, List.length_nil]
      omega

/-- C1: starting from a freshly created resume, after N successful
`updateResume` calls the version equals 1 + N and the history has N + 1
entries; moreover each single successful update increments the version
by exactly 1 and appends exactly one history entry carrying the new
version number. -/
theorem c1_version_counts_updates (u : AuthUser) (now0 : Int) (newId : String)
    (p0 : ResumePatch) (s0 : Store) (steps : List (Int × ResumePatch)) (s2 : Store)
    (hrun : runUpdates u newId steps (createResume (some u) now0 newId p0 s0).2 = .ok s2) :
    (∃ r, s2.resumes u.uid newId = some r ∧
      r.version = 1 + steps.length ∧ r.versions.length = steps.length + 1) ∧
    (∀ now1 p1 sA rA, sA.resumes u.uid newId = some rA →
      ∃ rB, (updateResume (some u) now1 newId p1 sA).2.resumes u.uid newId = some rB ∧
        rB.version = rA.version + 1 ∧
        rB.versions = rA.versions ++
          [{ versionNumber := rA.version + 1, timestamp := now1,
             changes := changeNote p1 }]) := by
  constructor
  · obtain ⟨-, r0, hr0, hv0, hl0⟩ := createResume_stores_v1 u now0 newId p0 s0
    obtain ⟨r2, hr2, hv2, hl2⟩ :=
      runUpdates_version_growth u newId steps _ s2 r0 hr0 hrun
    exact ⟨r2, hr2, by rw [hv2, hv0, Nat.add_comm], by rw [hl2, hl0, Nat.add_comm]⟩
  · intro now1 p1 sA rA hA
    obtain ⟨-, rB, hB1, hB2, hB3⟩ := updateResume_step u now1 newId p1 sA rA hA
    exact ⟨rB, hB1, hB2, hB3⟩

/-- The store after concretely creating "r1" for `wU` at time 0. -/
def wAfterCreate : Store := (createResume (some wU) 0 "r1" {} Store.empty).2

/-- The store after two further concrete updates at times 1 and 2. -/
def wAfterTwoUpdates : Store :=
  (runUpdates wU "r1" [(1, {}), (2, {})] wAfterCreate).toOption.getD Store.empty

/-- C1 witness: create then two successful updates gives version 3 and a
three-entry history. -/
theorem c1_version_counts_updates_witness :
    (∃ r, wAfterTwoUpdates.resumes wU.uid "r1" = some r ∧
      r.version = 1 + 2 ∧ r.versions.length = 2 + 1) ∧
    (∀ now1 p1 sA rA, sA.resumes wU.uid "r1" = some rA →
      ∃ rB, (updateResume (some wU) now1 "r1" p1 sA).2.resumes wU.uid "r1" = some rB ∧
        rB.version = rA.version + 1 ∧
        rB.versions = rA.versions ++
          [{ versionNumber := rA.version + 1, timestamp := now1,
             changes := changeNote p1 }]) := by
  have h := c1_version_counts_updates wU 0 "r1" {} Store.empty
    [(1, {}), (2, {})] wAfterTwoUpdates (by rfl)
  simpa using h

/-- C6 counterexample: `shareResume` called with the duration 0 given
does NOT set `expiresAt` to the share instant plus 0 days — JavaScript
`if (expiresInDays)` treats 0 as falsy, so the stored `expiresAt` is
null (never expires) instead of `now + 0 * msPerDay`. -/
theorem c6_counterexample :
    ((shareResume (some wU) 1000 "https://app" "r1" (some 0) wStoreDel).2.sharedResumes "r1").map
        (fun sr => sr.expiresAt) = some none ∧
    (none : Option Int) ≠ some (1000 + 0 * msPerDay) := by
  exact ⟨rfl, by decide⟩

/-- C6 (amended): `shareResume` on an existing resume returns the public
URL and marks the source public; `expiresAt` is the share instant plus
`expiresInDays` days whenever a NONZERO duration is given, and is null
(never expires) when the argument is omitted or zero. -/
theorem c6_share_expiry (u : AuthUser) (now : Int) (origin rid : String)
    (dayCount : Option Int) (s : Store) (r : Resume)
    (hr : s.resumes u.uid rid = some r) :
    (shareResume (some u) now origin rid dayCount s).1 = .ok (origin ++ "/shared/" ++ rid) ∧
    (∃ sr, (shareResume (some u) now origin rid dayCount s).2.sharedResumes rid = some sr ∧
      (∀ d, dayCount = some d → d ≠ 0 → sr.expiresAt = some (now + d * msPerDay)) ∧
      ((dayCount = none ∨ dayCount = some 0) → sr.expiresAt = none)) ∧
    (∃ r1, (shareResume (some u) now origin rid dayCount s).2.resumes u.uid rid = some r1 ∧
      r1.isPublic = true) := by
  rcases dayCount with _ | d
  · simp [shareResume, hr, Coll.set, ResumeColl.set]
  · by_cases hd : d = 0
    · subst hd
      simp [shareResume, hr, Coll.set, ResumeColl.set]
    · simp [shareResume, hr, Coll.set, ResumeColl.set, hd]

/-- C6 witness: sharing "r1" from `wStoreDel` at time 1000 for 7 days. -/
theorem c6_share_expiry_witness :
    (shareResume (some wU) 1000 "https://app" "r1" (some 7) wStoreDel).1 =
      .ok ("https://app" ++ "/shared/" ++ "r1") ∧
    (∃ sr, (shareResume (some wU) 1000 "https://app" "r1" (some 7) wStoreDel).2.sharedResumes "r1" = some sr ∧
      (∀ d, (some 7 : Option Int) = some d → d ≠ 0 → sr.expiresAt = some (1000 + d * msPerDay)) ∧
      (((some 7 : Option Int) = none ∨ (some 7 : Option Int) = some 0) → sr.expiresAt = none)) ∧
    (∃ r1, (shareResume (some wU) 1000 "https://app" "r1" (some 7) wStoreDel).2.resumes wU.uid "r1" = some r1 ∧
      r1.isPublic = true) :=
  c6_share_expiry wU 1000 "https://app" "r1" (some 7) wStoreDel wResume (by rfl)

/-- The recency-list invariant of the specification: the resume list is
capped at 10, the template list at 5, and neither holds a duplicate. -/
def RecencyInv (st : UserSettings) : Prop :=
  st.recentlyUsed.resumes.length ≤ 10 ∧ st.recentlyUsed.templates.length ≤ 5 ∧
  st.recentlyUsed.resumes.Nodup ∧ st.recentlyUsed.templates.Nodup

/-- A patch whose recently-used resume list has 11 distinct entries. -/
def wPatch11 : UserSettingsPatch :=
  { recentlyUsed := some
      { templates := []
        resumes := ["a", "b", "c", "d", "e", "f", "g", "h", "i", "j", "k"] } }

/-- C3 counterexample: `updateUserSettings` succeeds while writing an
11-element recently-used resume list verbatim, so the claim "every Data
Access Layer operation leaves at most 10 entries" fails at this input. -/
theorem c3_counterexample :
    (updateUserSettings (some wU) wPatch11 wStoreDel).1 = .ok () ∧
    ((updateUserSettings (some wU) wPatch11 wStoreDel).2.userSettings "u1").map
      (fun st => st.recentlyUsed.resumes.length) = some 11 ∧
    ¬ (11 ≤ 10) := by
  exact ⟨rfl, rfl, by decide⟩

/-- Pushing an id to the front and truncating keeps the length within
the cap. -/
theorem pushRecent_length_le (x : String) (l : List String) (n : Nat) :
    (pushRecent x l n).length ≤ n := by
  simp [pushRecent, List.length_take]

/-- Pushing an id to the front of a de-duplicated list yields a list
with no duplicates: the filter removes the pushed id from the tail. -/
theorem pushRecent_nodup (x : String) (l : List String) (h : l.Nodup) (n : Nat) :
    (pushRecent x l n).Nodup := by
  unfold pushRecent
  refine List.Nodup.sublist (List.take_sublist n _) ?_
  refine List.nodup_cons.mpr ⟨?_, h.filter _⟩
  simp [List.mem_filter]

/-- `createResume` preserves the recency-list invariant of every stored
settings document. -/
theorem createResume_keeps_recencyInv (u : AuthUser) (now : Int) (newId : String)
    (p : ResumePatch) (s : Store)
    (hinv : ∀ uid st, s.userSettings uid = some st → RecencyInv st) :
    ∀ uid st, (createResume (some u) now newId p s).2.userSettings uid = some st →
      RecencyInv st := by
  intro uid st hst
  by_cases hu : uid = u.uid
  · subst hu
    rcases h1 : s.users u.uid with _ | prof <;>
      rcases h2 : s.userSettings u.uid with _ | st0 <;>
        simp [createResume, h1, h2, Coll.set] at hst
    · subst hst
      rcases h3 : p.templateId with _ | t
      · simp [RecencyInv, freshSettingsDoc, h3]
      · by_cases ht : t = "" <;> simp [RecencyInv, freshSettingsDoc, h3, ht]
    · obtain ⟨c1, c2, c3, c4⟩ := hinv u.uid st0 h2
      subst hst
      refine ⟨pushRecent_length_le _ _ _, ?_, pushRecent_nodup _ _ c3 _, ?_⟩
      · show (match p.templateId with
          | some t => if t = "" then st0.recentlyUsed.templates
                      else pushRecent t st0.recentlyUsed.templates 5
          | none => st0.recentlyUsed.templates).length ≤ 5
        rcases h3 : p.templateId with _ | t
        · exact c2
        · by_cases ht : t = "" <;> simp [ht, pushRecent_length_le, c2]
      · show (match p.templateId with
          | some t => if t = "" then st0.recentlyUsed.templates
                      else pushRecent t st0.recentlyUsed.templates 5
          | none => st0.recentlyUsed.templates).Nodup
        rcases h3 : p.templateId with _ | t
        · exact c4
        · by_cases ht : t = "" <;> simp [ht, pushRecent_nodup _ _ c4, c4]
    · subst hst
      rcases h3 : p.templateId with _ | t
      · simp [RecencyInv, freshSettingsDoc, h3]
      · by_cases ht : t = "" <;> simp [RecencyInv, freshSettingsDoc, h3, ht]
    · obtain ⟨c1, c2, c3, c4⟩ := hinv u.uid st0 h2
      subst hst
      refine ⟨pushRecent_length_le _ _ _, ?_, pushRecent_nodup _ _ c3 _, ?_⟩
      · show (match p.templateId with
          | some t => if t = "" then st0.recentlyUsed.templates
                      else pushRecent t st0.recentlyUsed.templates 5
          | none => st0.recentlyUsed.templates).length ≤ 5
        rcases h3 : p.templateId with _ | t
        · exact c2
        · by_cases ht : t = "" <;> simp [ht, pushRecent_length_le, c2]
      · show (match p.templateId with
          | some t => if t = "" then st0.recentlyUsed.templates
                      else pushRecent t st0.recentlyUsed.templates 5
          | none => st0.recentlyUsed.templates).Nodup
        rcases h3 : p.templateId with _ | t
        · exact c4
        · by_cases ht : t = "" <;> simp [ht, pushRecent_nodup _ _ c4, c4]
  · have hsame : (createResume (some u) now newId p s).2.userSettings uid =
        s.userSettings uid := by
      rcases h1 : s.users u.uid with _ | prof <;>
        rcases h2 : s.userSettings u.uid with _ | st0 <;>
          simp [createResume, h1, h2, Coll.set, hu]
    rw [hsame] at hst
    exact hinv uid st hst

/-- `updateResume` preserves the recency-list invariant of every stored
settings document. -/
theorem updateResume_keeps_recencyInv (u : AuthUser) (now : Int) (rid : String)
    (p : ResumePatch) (s : Store)
    (hinv : ∀ uid st, s.userSettings uid = some st → RecencyInv st) :
    ∀ uid st, (updateResume (some u) now rid p s).2.userSettings uid = some st →
      RecencyInv st := by
  intro uid st hst
  rcases hr : s.resumes u.uid rid with _ | r
  · simp [updateResume, hr] at hst
    exact hinv uid st hst
  · by_cases hu : uid = u.uid
    · subst hu
      rcases h2 : s.userSettings u.uid with _ | st0 <;>
        simp [updateResume, hr, h2, Coll.set] at hst
      obtain ⟨c1, c2, c3, c4⟩ := hinv u.uid st0 h2
      subst hst
      exact ⟨pushRecent_length_le _ _ _, c2, pushRecent_nodup _ _ c3 _, c4⟩
    · have hsame : (updateResume (some u) now rid p s).2.userSettings uid =
          s.userSettings uid := by
        rcases h2 : s.userSettings u.uid with _ | st0 <;>
          simp [updateResume, hr, h2, Coll.set, hu]
      rw [hsame] at hst
      exact hinv uid st hst

/-- `deleteResume` preserves the recency-list invariant of every stored
settings document. -/
theorem deleteResume_keeps_recencyInv (u : AuthUser) (rid : String) (s : Store)
    (hinv : ∀ uid st, s.userSettings uid = some st → RecencyInv st) :
    ∀ uid st, (deleteResume (some u) rid s).2.userSettings uid = some st →
      RecencyInv st := by
  intro uid st hst
  by_cases hu : uid = u.uid
  · subst hu
    rcases h2 : s.userSettings u.uid with _ | st0 <;>
      simp [deleteResume, h2, Coll.set] at hst
    obtain ⟨c1, c2, c3, c4⟩ := hinv u.uid st0 h2
    subst hst
    exact ⟨le_trans (List.length_filter_le _ _) c1, c2, c3.filter _, c4⟩
  · have hsame : (deleteResume (some u) rid s).2.userSettings uid =
        s.userSettings uid := by
      rcases h2 : s.userSettings u.uid with _ | st0 <;>
        simp [deleteResume, h2, Coll.set, hu]
    rw [hsame] at hst
    exact hinv uid st hst

/-- C3 (amended): starting from settings whose recency lists satisfy the
caps (10 resumes, 5 templates) and are duplicate-free, `createResume`,
`updateResume` and `deleteResume` each preserve that invariant;
`updateUserSettings` is excluded — it writes the caller-supplied lists
verbatim with no enforcement (see the counterexample). -/
theorem c3_recency_invariant (u : AuthUser) (now : Int) (newId rid : String)
    (p : ResumePatch) (s : Store)
    (hinv : ∀ uid st, s.userSettings uid = some st → RecencyInv st) :
    (∀ uid st, (createResume (some u) now newId p s).2.userSettings uid = some st →
      RecencyInv st) ∧
    (∀ uid st, (updateResume (some u) now rid p s).2.userSettings uid = some st →
      RecencyInv st) ∧
    (∀ uid st, (deleteResume (some u) rid s).2.userSettings uid = some st →
      RecencyInv st) :=
  ⟨createResume_keeps_recencyInv u now newId p s hinv,
   updateResume_keeps_recencyInv u now rid p s hinv,
   deleteResume_keeps_recencyInv u rid s hinv⟩

/-- The settings document produced for "u1" by creating "r9" on
`wStoreDel` at time 5. -/
def wSettingsAfterCreate9 : UserSettings :=
  { wSettingsTwo with
    recentlyUsed := { templates := [], resumes := ["r9", "r1", "r2"] }
    updatedAt := some 5 }

/-- C3 witness: concretely creating "r9" on `wStoreDel` (whose settings
satisfy the invariant) yields settings that satisfy it again. -/
theorem c3_recency_invariant_witness : RecencyInv wSettingsAfterCreate9 :=
  (c3_recency_invariant wU 5 "r9" "r1" {} wStoreDel
    (by
      intro uid st h
      by_cases hu : uid = "u1"
      · subst hu
        simp [wStoreDel, Store.empty, Coll.set] at h
        subst h
        exact ⟨by decide, by decide, by decide, by decide⟩
      · simp [wStoreDel, Store.empty, Coll.set, hu] at h)).1
    "u1" wSettingsAfterCreate9 (by rfl)
